import Mathlib

/-!
Verification of the temporal/value layer of the abbychau/mysql-parser
repository (a Go MySQL front end).  The Go sources are shallowly embedded:
unsigned 64-bit words become `Nat` with explicit `% 2 ^ 64` where wrap-around
matters, Go `int` becomes `Int`, Go strings become `List Char` (all inputs
exercised here are ASCII, so byte indexing and rune indexing agree), and
functions returning `(value, error)` become pairs with an `Option`al error.
Masked shift-or chains whose operands occupy disjoint bit windows are written
as sums; a genuine `Nat.lor` is kept wherever disjointness is not forced by
the source.
-/

namespace MP

/-- Go string, embedded as a list of characters (ASCII inputs only). -/
abbrev Str := List Char

/-- Embed a Lean string literal as a Go string. -/
def gs (s : String) : Str := s.data

/-- Go `uint64(i)` conversion from a Go `int` (wrap-around modulo `2 ^ 64`). -/
def toU64 (i : Int) : Nat := (i % (2 ^ 64 : Int)).toNat

/- A `CoreTime` is a packed `uint64` (year 14 bits at offset 50, month 4 at
46, day 5 at 41, hour 5 at 36, minute 6 at 30, second 6 at 24, microsecond 20
at 4, and a 4-bit `fspTt` tag at offset 0), per the bit-field constants of
the source; a `Time` is the same packed word.  Both are embedded as plain
`Nat` below. -/

/-- `mysql.TypeTimestamp` protocol type code (modelled: the `mysql` constant
package is not under `src/`; the value is the standard MySQL wire code). -/
def TypeTimestamp : Nat := 7

/-- `mysql.TypeDate` protocol type code (modelled, standard MySQL wire code). -/
def TypeDate : Nat := 10

/-- `mysql.TypeDatetime` protocol type code (modelled, standard code). -/
def TypeDatetime : Nat := 12

/-- `UnspecifiedFsp` (modelled from the spec: the fsp constants file is not
under `src/`; "an unspecified fsp maps to a fixed default of 0"). -/
def UnspecifiedFsp : Int := -1

/-- `DefaultFsp` (modelled, see `UnspecifiedFsp`). -/
def DefaultFsp : Int := 0

/-- `MaxFsp` (modelled: fsp ranges over 0–6 per the spec). -/
def MaxFsp : Int := 6

/-- `MinFsp` (modelled). -/
def MinFsp : Int := 0

/-- `fspTtForDate = 0b1110`. -/
def fspTtForDate : Nat := 14

/-- `FromDate` packs the seven fields.  Each Go `v |= (uint64(x) <<
offset) & mask` lands in a bit window disjoint from all others, so the
running `|=` is addition of the masked shifted fields. -/
def FromDate (year month day hour minute second microsecond : Int) : Nat :=
  toU64 microsecond % 2 ^ 20 * 2 ^ 4
  + toU64 second % 2 ^ 6 * 2 ^ 24
  + toU64 minute % 2 ^ 6 * 2 ^ 30
  + toU64 hour % 2 ^ 5 * 2 ^ 36
  + toU64 day % 2 ^ 5 * 2 ^ 41
  + toU64 month % 2 ^ 4 * 2 ^ 46
  + toU64 year % 2 ^ 14 * 2 ^ 50

/-- `FromDateChecked` rejects any field that does not fit its bit width
(`uint64(x) >= 1 << width`, so a negative Go `int` wraps and is rejected). -/
def FromDateChecked (year month day hour minute second microsecond : Int) :
    Option Nat :=
  if toU64 year ≥ 2 ^ 14 ∨ toU64 month ≥ 2 ^ 4 ∨ toU64 day ≥ 2 ^ 5 ∨
      toU64 hour ≥ 2 ^ 5 ∨ toU64 minute ≥ 2 ^ 6 ∨ toU64 second ≥ 2 ^ 6 ∨
      toU64 microsecond ≥ 2 ^ 20 then
    none
  else
    some (FromDate year month day hour minute second microsecond)

/-- Modelled from the spec: `CoreTime.Year` accessor (the accessor methods
are not under `src/`; the field extraction is forced by the bit-field
constants and `FromDate` under `src/`). -/
def Year (t : Nat) : Nat := t / 2 ^ 50 % 2 ^ 14

/-- Modelled from the spec: `CoreTime.Month` accessor. -/
def Month (t : Nat) : Nat := t / 2 ^ 46 % 2 ^ 4

/-- Modelled from the spec: `CoreTime.Day` accessor. -/
def Day (t : Nat) : Nat := t / 2 ^ 41 % 2 ^ 5

/-- Modelled from the spec: `CoreTime.Hour` accessor. -/
def Hour (t : Nat) : Nat := t / 2 ^ 36 % 2 ^ 5

/-- Modelled from the spec: `CoreTime.Minute` accessor. -/
def Minute (t : Nat) : Nat := t / 2 ^ 30 % 2 ^ 6

/-- Modelled from the spec: `CoreTime.Second` accessor. -/
def Second (t : Nat) : Nat := t / 2 ^ 24 % 2 ^ 6

/-- Modelled from the spec: `CoreTime.Microsecond` accessor. -/
def Microsecond (t : Nat) : Nat := t / 2 ^ 4 % 2 ^ 20

/-- Modelled from the spec: `datetimeToUint64` packs the six date/time
fields as the decimal number `YYYYMMDDHHMMSS` (used by `compareTime`). -/
def datetimeToUint64 (t : Nat) : Nat :=
  Year t * 10 ^ 10 + Month t * 10 ^ 8 + Day t * 10 ^ 6 +
    Hour t * 10 ^ 4 + Minute t * 10 ^ 2 + Second t

/-- Modelled from the spec: `compareTime` compares the decimal-packed
date/time parts, then the microseconds. -/
def compareTime (a b : Nat) : Int :=
  if datetimeToUint64 a < datetimeToUint64 b then -1
  else if datetimeToUint64 a > datetimeToUint64 b then 1
  else if Microsecond a < Microsecond b then -1
  else if Microsecond a > Microsecond b then 1
  else 0

/-- `ZeroCoreTime`. -/
def ZeroCoreTime : Nat := 0

/-- `Time.IsZero`: `compareTime(t.coreTime, ZeroCoreTime) == 0`. -/
def IsZero (t : Nat) : Bool := compareTime t ZeroCoreTime == 0

/-- `Time.getFspTt`: `uint64(t) & fspTtBitFieldMask` (`0b1111`). -/
def getFspTt (t : Nat) : Nat := t % 16

/-- `Time.setFspTt`: clear the low 4 bits (`&= ^fspTtBitFieldMask`, which
also truncates to 64 bits) then or in the new tag. -/
def setFspTt (t : Nat) (fspTt : Nat) : Nat :=
  (t % 2 ^ 64 / 16 * 16) ||| fspTt

/-- `Time.Type`. -/
def TypeOf (t : Nat) : Nat :=
  if getFspTt t = fspTtForDate then TypeDate
  else if t % 2 = 1 then TypeTimestamp
  else TypeDatetime

/-- `Time.Fsp`. -/
def FspOf (t : Nat) : Int :=
  if getFspTt t = fspTtForDate then 0 else (getFspTt t / 2 : Nat)

/-- `Time.SetType` (the Go `switch` with a no-op default branch; `fspTt |= 1`
is written `2 * (fspTt / 2) + 1` = set bit 0, and `fspTt &= ^uint(1)` is
`fspTt / 2 * 2` = clear bit 0). -/
def SetType (t : Nat) (tp : Nat) : Nat :=
  let fspTt := getFspTt t
  let fspTt := if fspTt = fspTtForDate ∧ tp ≠ TypeDate then 0 else fspTt
  let fspTt :=
    if tp = TypeDate then fspTtForDate
    else if tp = TypeTimestamp then fspTt / 2 * 2 + 1
    else if tp = TypeDatetime then fspTt / 2 * 2
    else fspTt
  setFspTt t fspTt

/-- `Time.SetFsp`: a no-op on dates; otherwise clear the fsp bits 1–3
(`&= ^fspBitFieldMask`, truncating to 64 bits) and or in `uint64(fsp) << 1`. -/
def SetFsp (t : Nat) (fsp : Int) : Nat :=
  if getFspTt t = fspTtForDate then t
  else
    let fsp := if fsp = UnspecifiedFsp then DefaultFsp else fsp
    (t % 2 ^ 64 - t % 16 / 2 * 2) ||| (toU64 fsp * 2 % 2 ^ 64)

/-- `Time.CoreTime`: `uint64(t) & coreTimeBitFieldMask` (clear the low 4
tag bits, truncate to 64 bits). -/
def CoreTimeOf (t : Nat) : Nat := t % 2 ^ 64 / 16 * 16

/-- `Time.SetCoreTime`: keep the 4 tag bits, replace the 60 core bits
(the two or-ed parts are disjoint, so the `|=` is addition). -/
def SetCoreTime (t : Nat) (ct : Nat) : Nat :=
  t % 16 + ct % 2 ^ 64 / 16 * 16

/-- `NewTime` combines core bits with the type/fsp tag.  The `|=` of
`uint64(fsp) << 1` is kept as a genuine `lor` because a caller-supplied
out-of-range fsp may overlap the core bits. -/
def NewTime (coreTime : Nat) (tp : Nat) (fsp : Int) : Nat :=
  let t := coreTime % 2 ^ 64 / 16 * 16
  if tp = TypeDate then t + fspTtForDate
  else
    let fsp := if fsp = UnspecifiedFsp then DefaultFsp else fsp
    let t := t ||| (toU64 fsp * 2 % 2 ^ 64)
    if tp = TypeTimestamp then t ||| 1 else t

/-- `Time.ToPackedUint` (error is always nil, so just the packed word).
`ymd<<17|hms`, `hour<<12|minute<<6|sec`, `(…<<24)|micro` have statically
disjoint windows (`day`, `hour` < 2^5, `minute`, `sec` < 2^6,
`micro` < 2^20 by the accessors), so the ors are written as sums. -/
def ToPackedUint (t : Nat) : Nat :=
  if IsZero t then 0
  else
    let ymd := (Year t * 13 + Month t) * 2 ^ 5 + Day t
    let hms := Hour t * 2 ^ 12 + Minute t * 2 ^ 6 + Second t
    (ymd * 2 ^ 17 + hms) * 2 ^ 24 + Microsecond t

/-- `Time.FromPackedUint` decodes into the receiver (the tag bits of the
receiver are preserved; only the core bits are replaced). -/
def FromPackedUint (t : Nat) (packed : Nat) : Nat :=
  if packed = 0 then SetCoreTime t ZeroCoreTime
  else
    let ymdhms : Nat := packed / 2 ^ 24
    let ymd : Nat := ymdhms / 2 ^ 17
    let day : Nat := ymd % 2 ^ 5
    let ym : Nat := ymd / 2 ^ 5
    let month : Nat := ym % 13
    let year : Nat := ym / 13
    let hms : Nat := ymdhms % 2 ^ 17
    let second : Nat := hms % 2 ^ 6
    let minute : Nat := hms / 2 ^ 6 % 2 ^ 6
    let hour : Nat := hms / 2 ^ 12
    let microsec : Nat := packed % 2 ^ 24
    SetCoreTime t
      (FromDate (↑year) (↑month) (↑day) (↑hour) (↑minute) (↑second)
        (↑microsec))

/-- `adjustYear`: two-digit year adjustment. -/
def adjustYear (y : Int) : Int :=
  if 0 ≤ y ∧ y ≤ 69 then 2000 + y
  else if 70 ≤ y ∧ y ≤ 99 then 1900 + y
  else y

/-- A `Time` whose seven fields lie in the documented ranges of the packed
format (year 0–9999, month 0–12, day 0–31, hour 0–23, minute 0–59,
second 0–59, microsecond 0–999999). -/
def ValidTime (t : Nat) : Prop :=
  Year t ≤ 9999 ∧ Month t ≤ 12 ∧ Day t ≤ 31 ∧ Hour t ≤ 23 ∧
    Minute t ≤ 59 ∧ Second t ≤ 59 ∧ Microsecond t ≤ 999999

instance (t : Nat) : Decidable (ValidTime t) := by
  unfold ValidTime; infer_instance

/-! ### Error model (for `StmtContext.HandleTruncate`) -/

/-- A Go `error` value as classified by `HandleTruncate`: `terror` is the
package's own `*TError` (from `NewStd`) or any other plain error — the
`err.(*errors.Error)` type assertion fails on it; `perror` is a pingcap
`*errors.Error` carrying a terror code — the assertion succeeds. -/
inductive GoErr where
  | terror (code : Nat)
  | perror (code : Nat)
deriving DecidableEq, Repr

/-- `mysql.ErrTruncatedWrongValue` (modelled: the `mysql` errcode package is
not under `src/`; standard MySQL number). -/
def ErrTruncatedWrongValueCode : Nat := 1292

/-- `mysql.ErrDataTooLong` (modelled, standard number). -/
def ErrDataTooLongCode : Nat := 1406

/-- `mysql.ErrTruncatedWrongValueForField` (modelled, standard number). -/
def ErrTruncatedWrongValueForFieldCode : Nat := 1366

/-- `mysql.ErrWarnDataOutOfRange` (modelled, standard number). -/
def ErrWarnDataOutOfRangeCode : Nat := 1264

/-- `mysql.ErrDataOutOfRange` (modelled, standard number); `errors.go`
defines the Overflow-class error as `ErrOverflow = NewStd(mysql.ErrDataOutOfRange)`. -/
def ErrDataOutOfRangeCode : Nat := 1690

/-- `ErrBadNumber`'s code, written `1367` in `HandleTruncate`. -/
def ErrBadNumberCode : Nat := 1367

/-- `mysql.ErrWrongValueForType` (modelled; the exact number is immaterial
to the claims, only that it is none of the other codes). -/
def ErrWrongValueForTypeCode : Nat := 1453

/-- `mysql.ErrDatetimeFunctionOverflow` (modelled, standard number). -/
def ErrDatetimeFunctionOverflowCode : Nat := 1441

/-- `mysql.WarnDataTruncated` (modelled, standard number); `errors.go`
defines `ErrTruncated = NewStd(mysql.WarnDataTruncated)`. -/
def WarnDataTruncatedCode : Nat := 1265

/-- The Overflow-class error constant of `errors.go`:
`ErrOverflow = NewStd(mysql.ErrDataOutOfRange)` — a `*TError`. -/
def ErrOverflow : GoErr := GoErr.terror ErrDataOutOfRangeCode

/-- The truncation error constant of `errors.go`:
`ErrTruncatedWrongVal = NewStd(mysql.ErrTruncatedWrongValue)` — a `*TError`. -/
def ErrTruncatedWrongValGo : GoErr := GoErr.terror ErrTruncatedWrongValueCode

/-- The code list of `HandleTruncate`: the error is subject to the context's
truncation policy exactly when it is a pingcap `*errors.Error` whose code is
in this list (the negated `&&`-chain of the source, which also names the
literal codes `1367` and `1292`). -/
def handledByTruncatePolicy : GoErr → Bool
  | GoErr.terror _ => false
  | GoErr.perror code =>
    code = ErrTruncatedWrongValueCode ∨ code = ErrDataTooLongCode ∨
    code = ErrTruncatedWrongValueForFieldCode ∨
    code = ErrWarnDataOutOfRangeCode ∨ code = ErrDataOutOfRangeCode ∨
    code = ErrBadNumberCode ∨ code = ErrWrongValueForTypeCode ∨
    code = ErrDatetimeFunctionOverflowCode ∨ code = WarnDataTruncatedCode ∨
    code = 1292

/-- `StmtContext`: the flag fields consulted by `HandleTruncate` plus the
accumulated warnings (`ContextFlags.ignoreTruncateErr` / `truncateAsWarning`
are read through the `Flags()` accessors). -/
structure StmtContext where
  ignoreTruncateErr : Bool
  truncateAsWarning : Bool
  warnings : List GoErr
deriving DecidableEq, Repr

/-- `StmtContext.AppendWarning`. -/
def AppendWarning (c : StmtContext) (e : GoErr) : StmtContext :=
  { c with warnings := c.warnings ++ [e] }

/-- `StmtContext.HandleTruncate` (part_005):  nil stays nil; an error that is
not a pingcap `*errors.Error` with a listed code is returned unchanged
(`errors.Cause` is the identity on the error values modelled here); a listed
error is dropped under `ignoreTruncateErr`, collected as a warning under
`truncateAsWarning`, and returned unchanged otherwise.  Returns the resulting
error and the (possibly extended) context. -/
def HandleTruncate (c : StmtContext) (err : Option GoErr) :
    Option GoErr × StmtContext :=
  match err with
  | none => (none, c)
  | some e =>
    if ¬ handledByTruncatePolicy e then (some e, c)
    else if c.ignoreTruncateErr then (none, c)
    else if c.truncateAsWarning then (none, AppendWarning c e)
    else (some e, c)

/-! ### Enum resolution -/

/-- `Enum` (charset.go): a name plus a 1-based ordinal. -/
structure Enum where
  Name : Str
  Value : Nat
deriving DecidableEq, Repr

/-- `ParseEnumValue` (charset.go): ordinal 0 or beyond the member count is an
error (an `errors.Wrap` of `ErrTruncated`, whose cause is the `*TError` with
code `WarnDataTruncated`) with the zero `Enum`; otherwise member
`elems[number-1]` with value `number`. -/
def ParseEnumValue (elems : List Str) (number : Nat) : Enum × Option GoErr :=
  if number = 0 ∨ number > elems.length then
    (⟨[], 0⟩, some (GoErr.terror WarnDataTruncatedCode))
  else
    (⟨elems.getD (number - 1) [], number⟩, none)

/-! ### Errors of the conversion and temporal parsing routines

These errors are produced by `GenWithStack`-style constructors, which wrap a
base terror into a plain formatted error; the model keeps only which base
constructor produced the error. -/

/-- Which error constructor produced a conversion/parsing error. -/
inductive TErr where
  | truncatedWrongVal
  | wrongValue
  | overflowErr
  | invalidFsp
  | tooBigPrecision
  | badScan
  | eofErr
  | dstTransition
deriving DecidableEq, Repr

/-! ### Decimal-string to uint conversion (etc.go) -/

/-- Value of a non-empty all-digit string (none otherwise). -/
def digitsVal : Str → Option Nat
  | [] => none
  | l =>
    let rec go : Str → Nat → Option Nat
      | [], acc => some acc
      | c :: rest, acc =>
        if '0' ≤ c ∧ c ≤ '9' then go rest (acc * 10 + (c.toNat - 48))
        else none
    go l 0

/-- Go `strconv.ParseInt(s, 10, 64)`: `none` on a malformed or out-of-range
input (the caller only tests `err != nil`). -/
def parseIntGo (s : Str) : Option Int :=
  match s with
  | '+' :: rest =>
    (digitsVal rest).bind fun n =>
      if n ≤ 2 ^ 63 - 1 then some (n : Int) else none
  | '-' :: rest =>
    (digitsVal rest).bind fun n =>
      if n ≤ 2 ^ 63 then some (-(n : Int)) else none
  | _ =>
    (digitsVal s).bind fun n =>
      if n ≤ 2 ^ 63 - 1 then some (n : Int) else none

/-- Go `strconv.ParseUint(s, 10, 64)`: `(value, errored)`; a syntax error
yields 0, a range error yields the clamped maximum, both with the error
flag set. -/
def parseUintGo (s : Str) : Nat × Bool :=
  match digitsVal s with
  | none => (0, true)
  | some n => if n ≤ 2 ^ 64 - 1 then (n, false) else (2 ^ 64 - 1, true)

/-- Go `strconv.FormatUint(n, 10)`. -/
def FormatUint (n : Nat) : Str := (Nat.repr n).data

/-- Go byte-wise lexicographic `<` on strings. -/
def goStrLt : Str → Str → Bool
  | [], [] => false
  | [], _ :: _ => true
  | _ :: _, [] => false
  | a :: as, b :: bs =>
    if a.toNat < b.toNat then true
    else if b.toNat < a.toNat then false
    else goStrLt as bs

/-- The scanning loop of `convertScientificNotation`: returns `(eIdx, point)`
(`-1` when absent); every `.` updates `point`, the first `e`/`E` stops the
scan and falls back to its own index when no point was seen. -/
def sciScan : Str → Nat → Int → Int × Int
  | [], _, point => (-1, point)
  | c :: rest, i, point =>
    if c = '.' then sciScan rest (i + 1) (Int.ofNat i)
    else if c = 'e' ∨ c = 'E' then
      (Int.ofNat i, if point = -1 then Int.ofNat i else point)
    else sciScan rest (i + 1) point

/-- Go `s[a:b]`. -/
def substr (s : Str) (a b : Nat) : Str := (s.drop a).take (b - a)

/-- `convertScientificNotation` (etc.go): normalize `.12345E+5` to `12345`
etc.; `none` models the error return (malformed exponent).  When the input
has an exponent but no decimal point, `point = eIdx = len(f)` and the Go
slice `f[point+1:]` is out of range (a panic); the clamped `take`/`drop`
used here is only meaningful outside that corner, which no claim relies
on. -/
def convertScientificNotation (str : Str) : Option Str :=
  let scan := sciScan str 0 (-1)
  let eIdx := scan.1
  let point := scan.2
  if eIdx = -1 then some str
  else
    match parseIntGo (str.drop (eIdx.toNat + 1)) with
    | none => none
    | some exp =>
      let f := str.take eIdx.toNat
      let p := point.toNat
      if exp = 0 then some f
      else if exp > 0 then
        if (point + exp : Int) = (f.length : Int) - 1 then
          some (f.take p ++ f.drop (p + 1))
        else if (point + exp : Int) < (f.length : Int) - 1 then
          some (f.take p ++ substr f (p + 1) (p + 1 + exp.toNat) ++
            [ '.' ] ++ f.drop (p + 1 + exp.toNat))
        else
          some (f.take p ++ f.drop (p + 1) ++
            List.replicate (p + exp.toNat - f.length + 1) '0')
      else
        let exp := -exp
        if exp < (point : Int) then
          some (f.take (p - exp.toNat) ++ [ '.' ] ++
            substr f (p - exp.toNat) p ++ f.drop (p + 1))
        else
          some ([ '0', '.' ] ++ List.replicate (exp.toNat - p) '0' ++
            f.take p ++ f.drop (p + 1))

/-- `convertDecimalStrToUint` (etc.go): strip sign and leading zeros, round
up on a first fractional digit ≥ '5', compare the integer-digit string
against the bound rendered as a string, and only then parse the digits. -/
def convertDecimalStrToUint (str : Str) (upperBound : Nat) (tp : Nat) :
    Nat × Option TErr :=
  match convertScientificNotation str with
  | none => (0, some TErr.badScan)
  | some str =>
    let p := str.indexOf '.'
    let intStrRaw := if p = str.length then str else str.take p
    let fracStr := if p = str.length then [] else str.drop (p + 1)
    let intStrT := intStrRaw.dropWhile (fun c => c == '0')
    let intStr := if intStrT = [] then [ '0' ] else intStrT
    if intStr.headD ' ' = '-' then (0, some TErr.overflowErr)
    else
      let round : Nat := if fracStr ≠ [] ∧ fracStr.headD ' ' ≥ '5' then 1 else 0
      let upperStr := FormatUint (upperBound - round)
      if intStr.length > upperStr.length ∨
          (intStr.length = upperStr.length ∧ goStrLt upperStr intStr) then
        (upperBound, some TErr.overflowErr)
      else
        match parseUintGo intStr with
        | (val, true) => (val, some TErr.overflowErr)
        | (val, false) => (val + round, none)

/-- `ConvertDecimalToUint` (etc.go) forwards the decimal's `ToString()`
rendering to `convertDecimalStrToUint`; the `MyDecimal` argument is modelled
by that decimal string. -/
def ConvertDecimalToUint (decStr : Str) (upperBound : Nat) (tp : Nat) :
    Nat × Option TErr :=
  convertDecimalStrToUint decStr upperBound tp

/-! ### Model of the Go `time` package for fixed-offset locations

This repository only ever constructs `time.UTC` (the `StmtContext.Location`
accessor) and `time.FixedZone` offsets, so a location is modelled by its
offset in seconds east of UTC, and an instant by unix seconds plus a
nanosecond-within-second.  Civil-calendar conversion uses the standard
era-based day-count algorithms, which agree with Go's calendar (proleptic
Gregorian). -/

/-- Fixed-offset Go location (seconds east of UTC). -/
structure GoLoc where
  off : Int
deriving DecidableEq, Repr

/-- `time.UTC`. -/
def UTC : GoLoc := ⟨0⟩

/-- `time.FixedZone(name, offset)` (the name is irrelevant). -/
def FixedZone (offset : Int) : GoLoc := ⟨offset⟩

/-- A Go `time.Time` in a fixed-offset location. -/
structure GoTime where
  unix : Int
  nsec : Int
  loc : GoLoc
deriving DecidableEq, Repr

/-- Days since 1970-01-01 of a civil date with month already normalized to
1–12 (era-based algorithm). -/
def daysFromCivil (y m d : Int) : Int :=
  let y := y - (if m ≤ 2 then 1 else 0)
  let era := Int.fdiv y 400
  let yoe := y - era * 400
  let mp := Int.fmod (m + 9) 12
  let doy := Int.fdiv (153 * mp + 2) 5 + d - 1
  let doe := yoe * 365 + Int.fdiv yoe 4 - Int.fdiv yoe 100 + doy
  era * 146097 + doe - 719468

/-- Civil date from days since 1970-01-01 (inverse of `daysFromCivil`). -/
def civilFromDays (z : Int) : Int × Int × Int :=
  let z := z + 719468
  let era := Int.fdiv z 146097
  let doe := z - era * 146097
  let yoe := Int.fdiv
    (doe - Int.fdiv doe 1460 + Int.fdiv doe 36524 - Int.fdiv doe 146096) 365
  let y := yoe + era * 400
  let doy := doe - (365 * yoe + Int.fdiv yoe 4 - Int.fdiv yoe 100)
  let mp := Int.fdiv (5 * doy + 2) 153
  let d := doy - Int.fdiv (153 * mp + 2) 5 + 1
  let m := mp + (if mp < 10 then 3 else -9)
  (y + (if m ≤ 2 then 1 else 0), m, d)

/-- Go `time.Date(...)`: out-of-range month/day/time fields are normalized by
carrying (month into year, nanoseconds into seconds, day and time-of-day
into the absolute count). -/
def goDate (year month day hour minu sec nsec : Int) (loc : GoLoc) : GoTime :=
  let m := month - 1
  let y := year + Int.fdiv m 12
  let m := Int.fmod m 12 + 1
  let carry := Int.fdiv nsec 1000000000
  let ns := Int.fmod nsec 1000000000
  let days := daysFromCivil y m 1 + (day - 1)
  let secs := days * 86400 + hour * 3600 + minu * 60 + (sec + carry)
  ⟨secs - loc.off, ns, loc⟩

/-- `t.Date()` and `t.Clock()` plus `t.Nanosecond()`:
(year, month, day, hour, minute, second, nanosecond) in `t`'s location. -/
def GoTime.dateClock (t : GoTime) : Int × Int × Int × Int × Int × Int × Int :=
  let lcl := t.unix + t.loc.off
  let days := Int.fdiv lcl 86400
  let secs := Int.fmod lcl 86400
  let c := civilFromDays days
  (c.1, c.2.1, c.2.2, Int.fdiv secs 3600, Int.fdiv (Int.fmod secs 3600) 60,
    Int.fmod secs 60, t.nsec)

/-- `t.In(loc)`. -/
def GoTime.inLoc (t : GoTime) (loc : GoLoc) : GoTime := ⟨t.unix, t.nsec, loc⟩

/-- `t.Add(d)` for a duration of `d` nanoseconds. -/
def GoTime.addNs (t : GoTime) (d : Int) : GoTime :=
  let tot := t.nsec + d
  ⟨t.unix + Int.fdiv tot 1000000000, Int.fmod tot 1000000000, t.loc⟩

/-- `FromGoTime`: add 500ns (rounding of the microsecond part), then repack
the civil fields. -/
def FromGoTime (t : GoTime) : Nat :=
  let t := t.addNs 500
  match t.dateClock with
  | (y, mo, d, h, mi, s, ns) => FromDate y mo d h mi s (Int.fdiv ns 1000)

/-- Modelled from the spec: `Time.GoTime(loc)` (not under `src/`) builds the
Go time at the stored fields and rejects the value when the civil fields do
not round-trip (e.g. month or day 0). -/
def TimeGoTime (t : Nat) (loc : GoLoc) : Option GoTime :=
  let y : Int := Year t
  let mo : Int := Month t
  let d : Int := Day t
  let h : Int := Hour t
  let mi : Int := Minute t
  let s : Int := Second t
  let us : Int := Microsecond t
  let tm := goDate y mo d h mi s (us * 1000) loc
  match tm.dateClock with
  | (y2, mo2, d2, h2, mi2, s2, ns2) =>
    if y2 = y ∧ mo2 = mo ∧ d2 = d ∧ h2 = h ∧ mi2 = mi ∧ s2 = s ∧
        Int.fdiv ns2 1000 = us then
      some tm
    else
      none

/-- Modelled from the spec: `Time.AdjustedGoTime(loc)`; fixed-offset
locations have no DST transitions, so it coincides with `GoTime`. -/
def AdjustedGoTime (t : Nat) (loc : GoLoc) : Option GoTime := TimeGoTime t loc

/-- `Time.ConvertTimeZone` updates the core time from one location to
another (`none` models the error return). -/
def ConvertTimeZone (t : Nat) (fromLoc toLoc : GoLoc) : Option Nat :=
  if ¬ IsZero t then
    match TimeGoTime t fromLoc with
    | none => none
    | some raw => some (SetCoreTime t (FromGoTime (raw.inLoc toLoc)))
  else
    some t

/-! ### fsp helpers (modelled: the fsp file is not under `src/`) -/

/-- Modelled from the spec: `CheckFsp` maps `UnspecifiedFsp` to the default
and rejects fsp outside [0, 6]. -/
def CheckFsp (fsp : Int) : Int × Option TErr :=
  if fsp = UnspecifiedFsp then (DefaultFsp, none)
  else if fsp < MinFsp then (DefaultFsp, some TErr.invalidFsp)
  else if fsp > MaxFsp then (MaxFsp, some TErr.tooBigPrecision)
  else (fsp, none)

/-- Modelled from the spec: `ParseFrac(str, fsp)` returns the microsecond
value and an overflow flag; the digit string is rounded at `fsp` digits
(half up), an all-nines round-up overflows to `(0, true)`.  The float
multiplications of the original are exact in the ranges involved.  Result is
`((v, overflow), err)`. -/
def ParseFrac (s : Str) (fsp : Int) : (Nat × Bool) × Option TErr :=
  if s = [] then ((0, false), none)
  else
    let r := CheckFsp fsp
    match r.2 with
    | some e => ((0, false), some e)
    | none =>
      let fsp := r.1.toNat
      if (s.length : Int) ≤ r.1 then
        match digitsVal s with
        | none => ((0, false), some TErr.badScan)
        | some tmp => ((tmp * 10 ^ (6 - s.length), false), none)
      else
        match digitsVal (s.take (fsp + 1)) with
        | none => ((0, false), some TErr.badScan)
        | some tmp =>
          let tmp := (tmp + 5) / 10
          if tmp ≥ 10 ^ fsp then ((0, true), none)
          else ((tmp * 10 ^ (6 - fsp), false), none)

/-! ### Lexing helpers (part_003, `util/parser` replacements) -/

/-- `isDigit` (modelled: the one-line helper is not under `src/`; `'0' ≤ c ≤
'9'`, corroborated by `Digit`'s check in part_003). -/
def isDigitB (c : Char) : Bool := 48 ≤ c.toNat ∧ c.toNat ≤ 57

/-- `isPunctuation` (modelled: the ranges are the ASCII punctuation blocks
0x21–0x2F, 0x3A–0x40, 0x5B–0x60, 0x7B–0x7E, exactly the ranges `AnyPunct`
(part_003) tests). -/
def isPunctB (c : Char) : Bool :=
  (33 ≤ c.toNat ∧ c.toNat ≤ 47) ∨ (58 ≤ c.toNat ∧ c.toNat ≤ 64) ∨
  (91 ≤ c.toNat ∧ c.toNat ≤ 96) ∨ (123 ≤ c.toNat ∧ c.toNat ≤ 126)

/-- Go `unicode.IsSpace` over the ASCII inputs used here. -/
def isSpaceB (c : Char) : Bool :=
  c = ' ' ∨ c.toNat = 9 ∨ c.toNat = 10 ∨ c.toNat = 11 ∨ c.toNat = 12 ∨
    c.toNat = 13

/-- Go `strings.TrimSpace`. -/
def goTrimSpace (s : Str) : Str :=
  ((s.dropWhile isSpaceB).reverse.dropWhile isSpaceB).reverse

/-- Go `strconv.Atoi` (= `ParseInt(s, 10, 0)` with 64-bit int). -/
def atoiGo (s : Str) : Option Int := parseIntGo s

namespace util

/-- `Char(s, c)` parses a single expected character (`none` = error). -/
def CharP (s : Str) (c : Char) : Option Str :=
  match s with
  | [] => none
  | x :: rest => if x = c then some rest else none

/-- `Space(s, min)` consumes leading spaces, at least `min` of them. -/
def Space (s : Str) (min : Nat) : Option Str :=
  let count := (s.takeWhile (fun c => c == ' ')).length
  if count < min then none else some (s.drop count)

/-- `Space0(s)` consumes any leading spaces. -/
def Space0 (s : Str) : Str := s.dropWhile (fun c => c == ' ')

/-- `Number(s)` parses a maximal leading digit run through `strconv.Atoi`
(`none` = no digits, or `Atoi` overflow). -/
def Number (s : Str) : Option (Int × Str) :=
  let digits := s.takeWhile isDigitB
  if digits = [] then none
  else
    match atoiGo digits with
    | none => none
    | some n => some (n, s.drop digits.length)

/-- `Digit(s, n)` parses exactly `n` leading digits (this replacement, unlike
the upstream it mimics, does not take a maximal run). -/
def DigitP (s : Str) (n : Nat) : Option (Str × Str) :=
  if s.length < n then none
  else if (s.take n).all isDigitB then some (s.take n, s.drop n)
  else none

/-- `AnyPunct(s)` consumes one ASCII punctuation character. -/
def AnyPunct (s : Str) : Option Str :=
  match s with
  | [] => none
  | c :: rest => if isPunctB c then some rest else none

end util

/-! ### Duration type and parser (part_007) -/

/-- `Duration`: an embedded `gotime.Duration` (nanoseconds, signed 64-bit in
Go — the arithmetic below never leaves that range on the paths the claims
exercise) plus an fsp. -/
structure Duration where
  d : Int
  Fsp : Int
deriving DecidableEq, Repr

/-- `MaxTime = 838h59m59s` in nanoseconds. -/
def MaxTime : Int := (838 * 3600 + 59 * 60 + 59) * 1000000000

/-- `MinTime = -MaxTime`. -/
def MinTime : Int := -MaxTime

/-- `TimeMaxHour`. -/
def TimeMaxHour : Int := 838

/-- `ZeroDuration`. -/
def ZeroDuration : Duration := ⟨0, DefaultFsp⟩

/-- `isNegativeDuration` strips one leading `-`. -/
def isNegativeDuration (str : Str) : Bool × Str :=
  match util.CharP str '-' with
  | none => (false, str)
  | some rest => (true, rest)

/-- `matchColon`: optional spaces, a colon, optional spaces. -/
def matchColon (str : Str) : Option Str :=
  match util.CharP (util.Space0 str) ':' with
  | none => none
  | some rest => some (util.Space0 rest)

/-- `matchHHMMSSDelimited`: an hour number, then up to two `: number` groups
(the first colon mandatory when `requireColon`). -/
def matchHHMMSSDelimited (str : Str) (requireColon : Bool) :
    Option ((Int × Int × Int) × Str) :=
  match util.Number str with
  | none => none
  | some (hour, rest0) =>
    match matchColon rest0 with
    | none => if requireColon then none else some ((hour, 0, 0), rest0)
    | some r1 =>
      match util.Number r1 with
      | none => none
      | some (m, rest1) =>
        match matchColon rest1 with
        | none => some ((hour, m, 0), rest1)
        | some r2 =>
          match util.Number r2 with
          | none => none
          | some (s, rest2) => some ((hour, m, s), rest2)

/-- `matchDayHHMMSS`: a day number, at least one space, then `HH[:MM[:SS]]`. -/
def matchDayHHMMSS (str : Str) : Option (Int × (Int × Int × Int) × Str) :=
  match util.Number str with
  | none => none
  | some (day, rest) =>
    match util.Space rest 1 with
    | none => none
    | some rest =>
      match matchHHMMSSDelimited rest false with
      | none => none
      | some (hms, rest) => some (day, hms, rest)

/-- `matchHHMMSSCompact`: a packed decimal `HHMMSS` number. -/
def matchHHMMSSCompact (str : Str) : Option ((Int × Int × Int) × Str) :=
  match util.Number str with
  | none => none
  | some (num, rest) => some ((num / 10000, num / 100 % 100, num % 100), rest)

/-- `hhmmssAddOverflow`: carry +1 through seconds and minutes at modulus 60
(hours unbounded), mirroring the `mod = [-1, 60, 60]` loop. -/
def hhmmssAddOverflow (h m s : Int) (overflow : Bool) : Int × Int × Int :=
  if ¬ overflow then (h, m, s)
  else
    let s := s + 1
    if s = 60 then
      let m := m + 1
      if m = 60 then (h + 1, 0, 0) else (h, m, 0)
    else (h, m, s)

/-- `checkHHMMSS`: minutes and seconds below 60. -/
def checkHHMMSS (m s : Int) : Bool := m < 60 ∧ s < 60

/-- `matchFrac`: an optional `.digits` suffix fed to `ParseFrac`; because
this repository's `Digit(s, 0)` consumes exactly zero digits, the fraction
fed to `ParseFrac` is always empty and the digits stay in `rest`. -/
def matchFrac (str : Str) (fsp : Int) : Option (Bool × Nat × Str) :=
  match util.CharP str '.' with
  | none => some (false, 0, str)
  | some rest =>
    match util.DigitP rest 0 with
    | none => none
    | some (digits, rest) =>
      match ParseFrac digits fsp with
      | (_, some _) => none
      | ((frac, overflow), none) => some (overflow, frac, rest)

/-- `matchDuration`: returns `(duration, isNull, error)`.  The `hms[0] +=
24*day` sum and the seconds product are exact `Int` arithmetic here; the Go
`int64` can wrap for astronomically large day counts, a corner no claim
reaches (the `hour > 838` clamp fires first for every input the claims
use). -/
def matchDuration (str : Str) (fsp : Int) : Duration × Bool × Option TErr :=
  let r := CheckFsp fsp
  match r.2 with
  | some e => (ZeroDuration, true, some e)
  | none =>
    let fsp := r.1
    if str.length = 0 then (ZeroDuration, true, some TErr.truncatedWrongVal)
    else
      let (negative, rest) := isNegativeDuration str
      let rest := util.Space0 rest
      let charsLen := rest.length
      let parsed : Option ((Int × Int × Int) × Str) :=
        match matchDayHHMMSS rest with
        | some (day, (h, m, s), remain) => some ((h + 24 * day, m, s), remain)
        | none =>
          match matchHHMMSSDelimited rest true with
          | some res => some res
          | none => matchHHMMSSCompact rest
      match parsed with
      | none => (ZeroDuration, true, some TErr.truncatedWrongVal)
      | some ((h0, m0, s0), rest) =>
        let rest := util.Space0 rest
        match matchFrac rest fsp with
        | none => (ZeroDuration, true, some TErr.truncatedWrongVal)
        | some (overflow, frac0, rest) =>
          if rest.length > 0 ∧ charsLen ≥ 12 then
            (ZeroDuration, true, some TErr.truncatedWrongVal)
          else
            let hms := hhmmssAddOverflow h0 m0 s0 overflow
            let frac := if overflow then 0 else frac0
            match hms with
            | (h, m, s) =>
              if ¬ checkHHMMSS m s then
                (ZeroDuration, true, some TErr.truncatedWrongVal)
              else if h > TimeMaxHour then
                (⟨if negative then MinTime else MaxTime, fsp⟩, false,
                  some TErr.truncatedWrongVal)
              else
                let d : Int := (h * 3600 + m * 60 + s) * 1000000000 +
                  (frac : Int) * 1000
                let d := if negative then -d else d
                if d > MaxTime then
                  (⟨MaxTime, fsp⟩, false, some TErr.truncatedWrongVal)
                else if d < MinTime then
                  (⟨MinTime, fsp⟩, false, some TErr.truncatedWrongVal)
                else if rest.length > 0 then
                  (⟨d, fsp⟩, false, some TErr.truncatedWrongVal)
                else (⟨d, fsp⟩, false, none)

/-- `canFallbackToDateTime`: the failed duration literal looks like a full
datetime (12/14 leading digits — dead under this repository's exactly-`n`
`Digit`, which always yields one digit — or a `D-D-D[ T]` date prefix). -/
def canFallbackToDateTime (str : Str) : Bool :=
  match util.DigitP str 1 with
  | none => false
  | some (digits, rest) =>
    if digits.length = 12 ∨ digits.length = 14 then true
    else
      match util.AnyPunct rest with
      | none => false
      | some rest =>
        match util.DigitP rest 1 with
        | none => false
        | some (_, rest) =>
          match util.AnyPunct rest with
          | none => false
          | some rest =>
            match util.DigitP rest 1 with
            | none => false
            | some (_, rest) =>
              rest.length > 0 ∧ (rest.headD ' ' = ' ' ∨ rest.headD ' ' = 'T')

/-- Go `Time.Round` through `n.Add(d).Round(p).Sub(n)` where `n` is
second-aligned: round `d` to the nearest multiple of `p`, half away from
zero (`p` a positive power of ten dividing 10^9). -/
def goRoundHalfAway (x p : Int) : Int :=
  if x ≥ 0 then (x + p / 2) / p * p
  else -((-x + p / 2) / p * p)

/-- `Duration.RoundFrac`: identical fsp is an identity (the `nil` location
fallback to `gotime.Local` is irrelevant — the zone is only used for the
anchor `n`, which is second-aligned in every fixed zone). -/
def DurationRoundFrac (d : Duration) (fsp : Int) (loc : Option GoLoc) :
    Duration × Option TErr :=
  let r := CheckFsp fsp
  match r.2 with
  | some e => (d, some e)
  | none =>
    let fsp := r.1
    if fsp = d.Fsp then (d, none)
    else
      let p : Int := 10 ^ (9 - fsp.toNat)
      (⟨goRoundHalfAway d.d p, fsp⟩, none)

/-- `Time.ConvertToDuration` takes the time-of-day part (error always nil). -/
def ConvertToDuration (t : Nat) : Duration × Option TErr :=
  if IsZero t then (ZeroDuration, none)
  else
    let frac : Int := Microsecond t * 1000
    let d : Int := ((Hour t : Int) * 3600 + (Minute t : Int) * 60 +
      (Second t : Int)) * 1000000000 + frac
    (⟨d, FspOf t⟩, none)

/-! ### Datetime string parsing (part_007) -/

/-- Parsing context: the `Location()` of the repository's `StmtContext` is
always `time.UTC`, and the relevant `ContextFlags` accessors; warnings are
returned alongside results instead of mutating the context. -/
structure PCtx where
  loc : GoLoc
  ignoreZeroInDate : Bool
  ignoreInvalidDateErr : Bool
deriving DecidableEq, Repr

/-- The context produced by `DefaultStmtNoWarningContext`-style construction:
UTC location, all relaxation flags false. -/
def defaultCtx : PCtx := ⟨UTC, false, false⟩

/-- `ZeroDatetime`. -/
def ZeroDatetimeV : Nat := NewTime ZeroCoreTime TypeDatetime DefaultFsp

/-- The backwards scan of `GetTimezone`: first `Z` stops the scan; the last
(`rightmost`) sign and colon indices seen before it are recorded.  The first
argument is the reversed literal, `i` the index of its head in the original. -/
def gtzLoop : Str → Int → Int → Int → Int × Int × Int
  | [], _, sidx, spidx => (-1, sidx, spidx)
  | c :: rest, i, sidx, spidx =>
    if c = 'Z' then (i, sidx, spidx)
    else
      let sidx := if sidx = -1 ∧ (c = '-' ∨ c = '+') then i else sidx
      let spidx := if spidx = -1 ∧ c = ':' then i else spidx
      gtzLoop rest (i - 1) sidx spidx

/-- Both characters of a two-character slice are digits
(`valid` in `GetTimezone`). -/
def validTwoDigit (s : Str) : Bool :=
  isDigitB (s.getD 0 ' ') ∧ isDigitB (s.getD 1 ' ')

/-- `GetTimezone` detects a trailing `Z`, `±HH`, `±HHMM` or `±HH:MM` suffix
via the `validIdxCombinations` key `k`; returns
`(idx, tzSign, tzHour, tzSep, tzMinute)` with `idx = -1` when absent. -/
def GetTimezone (lit : Str) : Int × Str × Str × Str × Str :=
  let l := lit.length
  match gtzLoop lit.reverse ((l : Int) - 1) (-1) (-1) with
  | (zidx, sidx, spidx) =>
    let k0 : Int := if (l : Int) - zidx = 1 then 100 else 0
    let t : Int := (l : Int) - sidx
    let k1 : Int := if t = 3 ∨ t = 5 ∨ t = 6 then t * 10 else 0
    let k2 : Int := if (l : Int) - spidx = 3 then 3 else 0
    let k := k0 + k1 + k2
    let combo : Option (Nat × Nat) :=
      if k = 100 then some (0, 0)
      else if k = 30 then some (2, 0)
      else if k = 50 then some (4, 2)
      else if k = 63 then some (5, 2)
      else none
    match combo with
    | none => (-1, [], [], [], [])
    | some (vh, vm) =>
      let hidx := l - vh
      let midx := l - vm
      let tzSign := if sidx ≠ -1 then [lit.getD sidx.toNat ' '] else []
      let idx : Int := if zidx ≠ -1 then zidx else (if sidx ≠ -1 then sidx else -1)
      let tzSep := if (l : Int) - spidx = 3 then [lit.getD spidx.toNat ' '] else []
      let tzHour := if vh ≠ 0 then substr lit hidx (hidx + 2) else []
      let tzMinute := if vm ≠ 0 then substr lit midx (midx + 2) else []
      if vh ≠ 0 ∧ ¬ validTwoDigit tzHour then (-1, [], [], [], [])
      else if vm ≠ 0 ∧ ¬ validTwoDigit tzMinute then (-1, [], [], [], [])
      else (idx, tzSign, tzHour, tzSep, tzMinute)

/-- The backwards scan of `GetFracIndex`: over the reversed prefix, stop at
the first punctuation character that is not a sign; it yields the index when
it is a dot. -/
def gfiLoop : Str → Int → Int
  | [], _ => -1
  | c :: rest, i =>
    if c ≠ '+' ∧ c ≠ '-' ∧ isPunctB c then (if c = '.' then i else -1)
    else gfiLoop rest (i - 1)

/-- `GetFracIndex`: index of the fractional-seconds dot, ignoring a trailing
timezone suffix; `-1` when absent. -/
def GetFracIndex (s : Str) : Int :=
  match GetTimezone s with
  | (tzIndex, _, _, _, _) =>
    let e : Int := if tzIndex ≠ -1 then tzIndex - 1 else (s.length : Int) - 1
    gfiLoop ((s.take (e + 1).toNat).reverse) e

/-- `GetFsp`: the fsp implied by a literal's fraction length, capped at 6. -/
def GetFsp (s : Str) : Int :=
  let index := GetFracIndex s
  let fsp : Int := if index < 0 then 0 else (s.length : Int) - index - 1
  if fsp > 6 then 6 else fsp

/-- The `for ; i > 0 && isPunctuation(s[i-1]); i--` walks of `splitDateTime`
(consume punctuation backwards from index `i`). -/
def backPunct (s : Str) : Nat → Nat
  | 0 => 0
  | i + 1 => if isPunctB (s.getD i ' ') then backPunct s i else i + 1

/-- `isValidSeparator`: punctuation anywhere; space/`T`/control whitespace
between the date and time parts (2 previous parts); any non-digit after 4
parts. -/
def isValidSeparator (c : Char) (prevParts : Nat) : Bool :=
  if isPunctB c then true
  else if prevParts = 2 ∧ (c = 'T' ∨ c = ' ' ∨ c.toNat = 9 ∨ c.toNat = 10 ∨
      c.toNat = 11 ∨ c.toNat = 12 ∨ c.toNat = 13) then true
  else prevParts > 4 ∧ ¬ isDigitB c

/-- The separator-run consumption of `ParseDateFormat`'s inner loop. -/
def pdfConsume (format : Str) (j : Nat) (prevParts : Nat) : Nat :=
  ((format.drop j).takeWhile (fun c => isValidSeparator c prevParts)).length

/-- The main loop of `ParseDateFormat` (index `i` from 1 to `len-2`): split
at valid separators, consuming runs of consecutive separators; a non-digit
non-separator aborts (`nil`).  `fuel` only bounds the recursion and exceeds
the remaining distance at every call, so the fuel-exhausted arm is
unreachable. -/
def pdfLoop (format : Str) : Nat → Nat → Nat → List Str → Option (List Str)
  | 0, _, start, seps => some (seps ++ [format.drop start])
  | fuel + 1, i, start, seps =>
    if i ≥ format.length - 1 then some (seps ++ [format.drop start])
    else
      let c := format.getD i ' '
      if isValidSeparator c seps.length then
        let prevParts := seps.length
        let seps := seps ++ [substr format start i]
        let cnt := pdfConsume format (i + 1) prevParts
        pdfLoop format fuel (i + 1 + cnt) (i + 1 + cnt) seps
      else if ¬ isDigitB c then none
      else pdfLoop format fuel (i + 1) start seps

/-- `ParseDateFormat` splits a trimmed literal into numeric components
(empty on a malformed literal — the `nil` returns). -/
def ParseDateFormat (format : Str) : List Str :=
  let format := goTrimSpace format
  if format.length = 0 then []
  else if ¬ isDigitB (format.getD 0 ' ') then []
  else
    match pdfLoop format (format.length + 1) 1 0 [] with
    | none => []
    | some seps => seps

/-- `splitDateTime` separates a literal into numeric components, a
fractional-seconds digit string, and the timezone suffix parts; `truncated`
reports garbage after the fraction digits. -/
def splitDateTime (format : Str) :
    List Str × Str × Bool × Str × Str × Str × Str × Bool :=
  match GetTimezone format with
  | (tzIndex, tzSign, tzHour, tzSep, tzMinute) =>
    let (format1, hasTZ) :=
      if tzIndex > 0 then (format.take (backPunct format tzIndex.toNat), true)
      else (format, false)
    let fracIndex := GetFracIndex format1
    let (fracStr, truncated, format2) :=
      if fracIndex > 0 then
        let fi := fracIndex.toNat
        let fracEnd := fi + 1 + ((format1.drop (fi + 1)).takeWhile isDigitB).length
        (substr format1 (fi + 1) fracEnd, fracEnd != format1.length,
          format1.take (backPunct format1 fi))
      else ([], false, format1)
    (ParseDateFormat format2, fracStr, hasTZ, tzSign, tzHour, tzSep, tzMinute,
      truncated)

/-- `scanTimeArgs`: `strconv.Atoi` on each component, requiring exactly the
expected number of components. -/
def scanTimeArgs (seps : List Str) (n : Nat) : Option (List Int) :=
  if seps.length ≠ n then none else seps.mapM atoiGo

/-- `fmt.Sscanf` with consecutive `%Nd` verbs on an ASCII string: each verb
reads at most `N` leading digits (at least one); an exhausted input yields
`io.EOF`, a non-digit a scan error; already-scanned values are kept. -/
def sscanfD (s : Str) : List Nat → List Nat × Option TErr
  | [] => ([], none)
  | w :: ws =>
    if s = [] then ([], some TErr.eofErr)
    else
      let run := s.takeWhile isDigitB
      if run = [] then ([], some TErr.badScan)
      else
        let tk := min w run.length
        match digitsVal (s.take tk) with
        | none => ([], some TErr.badScan)
        | some v =>
          match sscanfD (s.drop tk) ws with
          | (vs, e) => (v :: vs, e)

/-- `vs[i]` as a Go `int` with the zero default of unassigned `Sscanf`
arguments. -/
def gv (vs : List Nat) (i : Nat) : Int := (vs.getD i 0 : Nat)

/-- The `case 1` (single component) ladder of `parseDatetime`, specialized
to `isFloat = false`: fixed-width decompositions selected by the component
length, two-digit years adjusted, and the fraction string folded into
time-of-day (lengths 5/6/8) or seconds (9/10).  Returns the six fields, the
`hhmmss` flag, whether the truncated-value warning fired (which also clears
the error), and the remaining error. -/
def caseOne (s : Str) (fracStr : Str) (truncIn : Bool) :
    (Int × Int × Int × Int × Int × Int) × Bool × Bool × Option TErr :=
  let l := s.length
  let base : Option ((Int × Int × Int × Int × Int × Int) × Bool × Option TErr) :=
    if l = 14 then
      match sscanfD s [4, 2, 2, 2, 2, 2] with
      | (v, e) => some ((gv v 0, gv v 1, gv v 2, gv v 3, gv v 4, gv v 5), true, e)
    else if l = 12 then
      match sscanfD s [2, 2, 2, 2, 2, 2] with
      | (v, e) =>
        some ((adjustYear (gv v 0), gv v 1, gv v 2, gv v 3, gv v 4, gv v 5), true, e)
    else if l = 11 then
      match sscanfD s [2, 2, 2, 2, 2, 1] with
      | (v, e) =>
        some ((adjustYear (gv v 0), gv v 1, gv v 2, gv v 3, gv v 4, gv v 5), true, e)
    else if l = 10 then
      match sscanfD s [2, 2, 2, 2, 2] with
      | (v, e) =>
        some ((adjustYear (gv v 0), gv v 1, gv v 2, gv v 3, gv v 4, 0), false, e)
    else if l = 9 then
      match sscanfD s [2, 2, 2, 2, 1] with
      | (v, e) =>
        some ((adjustYear (gv v 0), gv v 1, gv v 2, gv v 3, gv v 4, 0), false, e)
    else if l = 8 then
      match sscanfD s [4, 2, 2] with
      | (v, e) => some ((gv v 0, gv v 1, gv v 2, 0, 0, 0), false, e)
    else if l = 7 then
      match sscanfD s [2, 2, 2, 1] with
      | (v, e) => some ((adjustYear (gv v 0), gv v 1, gv v 2, gv v 3, 0, 0), false, e)
    else if l = 6 ∨ l = 5 then
      match sscanfD s [2, 2, 2] with
      | (v, e) => some ((adjustYear (gv v 0), gv v 1, gv v 2, 0, 0, 0), false, e)
    else none
  match base with
  | none => ((0, 0, 0, 0, 0, 0), false, false, some TErr.wrongValue)
  | some ((y, mo, d, h, mi, s2), hh, e) =>
    if l = 5 ∨ l = 6 ∨ l = 8 then
      let (h2, mi2, s3, e2) :=
        if fracStr.length = 0 then (h, mi, s2, e)
        else if fracStr.length ≤ 2 then
          match sscanfD fracStr [2] with
          | (v, e3) => (gv v 0, mi, s2, e3)
        else if fracStr.length ≤ 4 then
          match sscanfD fracStr [2, 2] with
          | (v, e3) => (gv v 0, gv v 1, s2, e3)
        else
          match sscanfD fracStr [2, 2, 2] with
          | (v, e3) => (gv v 0, gv v 1, gv v 2, e3)
      let trunc := e2 ≠ none
      ((y, mo, d, h2, mi2, s3), hh, trunc, if trunc then none else e2)
    else if l = 9 ∨ l = 10 then
      let (s3, e2) :=
        if fracStr.length = 0 then ((0 : Int), e)
        else
          match sscanfD fracStr [2] with
          | (v, e3) => (gv v 0, e3)
      let trunc := e2 ≠ none
      ((y, mo, d, h, mi, s3), hh, trunc, if trunc then none else e2)
    else
      ((y, mo, d, h, mi, s2), hh, truncIn, if truncIn then none else e)

/-- `noAbsorb`: a trailing fraction/timezone group cannot be folded back
into the component list when there are already more than 5 components, or a
single component longer than 4 characters. -/
def noAbsorb (seps : List Str) : Bool :=
  seps.length > 5 ∨ (seps.length = 1 ∧ (seps.headD []).length > 4)

/-- Digit pair value (`(c0-'0')*10 + c1-'0'`). -/
def twoDigitVal (s : Str) : Int :=
  ((s.getD 0 ' ').toNat - 48) * 10 + ((s.getD 1 ' ').toNat - 48)

/-- `parseDatetime` (part_007), specialized to `isFloat = false` (the only
mode reachable from `ParseTime`/`ParseDuration`; the `isFloat` branches are
dropped and every `!isFloat` condition is true).  Returns
`((time, error), warnings)`. -/
def parseDatetimeStr (ctx : PCtx) (str : Str) (fsp : Int) :
    (Nat × Option TErr) × List TErr :=
  match splitDateTime str with
  | (seps0, fracStr0, hasTZ0, tzSign, tzHour, tzSep, tzMinute, truncatedOrIncorrect) =>
    let w0 : List TErr := if truncatedOrIncorrect then [TErr.truncatedWrongVal] else []
    let (seps1, fracStr) :=
      if fracStr0.length ≠ 0 ∧ ¬ noAbsorb seps0 then (seps0 ++ [fracStr0], [])
      else (seps0, fracStr0)
    let (sepsA, hasTZ) :=
      if hasTZ0 ∧ tzSign ≠ [] ∧ ¬ noAbsorb seps1 ∧ ¬ (tzMinute ≠ [] ∧ tzSep = []) then
        (seps1 ++ (if tzHour.length ≠ 0 then [tzHour] else []) ++
          (if tzMinute.length ≠ 0 then [tzMinute] else []), false)
      else (seps1, hasTZ0)
    -- the `switch len(seps)` default (`> 6`) truncates to 6 with a warning
    let seps := if sepsA.length > 6 then sepsA.take 6 else sepsA
    let w1 : List TErr :=
      if sepsA.length > 6 then [TErr.truncatedWrongVal] else []
    let fields : ((Int × Int × Int × Int × Int × Int) × Bool × List TErr × Option TErr) :=
      match hn : seps.length with
      | 0 => ((0, 0, 0, 0, 0, 0), false, [], some TErr.wrongValue)
      | 1 =>
        match caseOne (seps.headD []) fracStr truncatedOrIncorrect with
        | (fs, hh, warned, e) =>
          (fs, hh, if warned then [TErr.truncatedWrongVal] else [], e)
      | 2 => ((0, 0, 0, 0, 0, 0), false, [], some TErr.wrongValue)
      | 3 =>
        match scanTimeArgs seps 3 with
        | none => ((0, 0, 0, 0, 0, 0), false, [], some TErr.badScan)
        | some vs =>
          ((vs.getD 0 0, vs.getD 1 0, vs.getD 2 0, 0, 0, 0), false, [], none)
      | 4 =>
        match scanTimeArgs seps 4 with
        | none => ((0, 0, 0, 0, 0, 0), false, [], some TErr.badScan)
        | some vs =>
          ((vs.getD 0 0, vs.getD 1 0, vs.getD 2 0, vs.getD 3 0, 0, 0), false, [], none)
      | 5 =>
        match scanTimeArgs seps 5 with
        | none => ((0, 0, 0, 0, 0, 0), false, [], some TErr.badScan)
        | some vs =>
          ((vs.getD 0 0, vs.getD 1 0, vs.getD 2 0, vs.getD 3 0, vs.getD 4 0, 0),
            false, [], none)
      | _ =>
        match scanTimeArgs seps 6 with
        | none => ((0, 0, 0, 0, 0, 0), false, [], some TErr.badScan)
        | some vs =>
          ((vs.getD 0 0, vs.getD 1 0, vs.getD 2 0, vs.getD 3 0, vs.getD 4 0,
            vs.getD 5 0), true, [], none)
    match fields with
    | ((year0, month, day, hour, minute, second), hhmmss, w2, err) =>
      let warns := w0 ++ w2 ++ w1
      match err with
      | some TErr.eofErr => ((ZeroDatetimeV, some TErr.wrongValue), warns)
      | some e => ((ZeroDatetimeV, some e), warns)
      | none =>
        -- two-digit first component adjustment (`!isFloat` holds)
        let year :=
          if (seps.headD []).length ≤ 2 ∧
              ¬ (year0 = 0 ∧ month = 0 ∧ day = 0 ∧ hour = 0 ∧ minute = 0 ∧
                second = 0 ∧ fracStr = []) then
            adjustYear year0
          else year0
        let fr :=
          if hhmmss then ParseFrac fracStr fsp else ((0, false), none)
        match fr with
        | (_, some e) => ((ZeroDatetimeV, some e), warns)
        | ((microsecond, overflow), none) =>
          match FromDateChecked year month day hour minute second microsecond with
          | none => ((ZeroDatetimeV, some TErr.wrongValue), warns)
          | some tmp0 =>
            let next : Option Nat :=
              if overflow then
                match TimeGoTime tmp0 ctx.loc with
                | none => none
                | some t1 => some (FromGoTime (t1.addNs 1000000000))
              else some tmp0
            match next with
            | none => ((ZeroDatetimeV, some TErr.wrongValue), warns)
            | some tmp1 =>
              if hasTZ then
                if ¬ hhmmss then ((ZeroDatetimeV, some TErr.wrongValue), warns)
                else
                  let deltaHour := if tzHour.length ≠ 0 then twoDigitVal tzHour else 0
                  let deltaMinute := if tzMinute.length ≠ 0 then twoDigitVal tzMinute else 0
                  if deltaHour > 14 ∨ deltaMinute > 59 ∨
                      (deltaHour = 14 ∧ deltaMinute ≠ 0) ∨
                      (tzSign = gs "-" ∧ deltaHour = 0 ∧ deltaMinute = 0) then
                    ((ZeroDatetimeV, some TErr.wrongValue), warns)
                  else
                    let offset := deltaHour * 3600 + deltaMinute * 60
                    let offset := if tzSign = gs "-" then -offset else offset
                    match TimeGoTime tmp1 (FixedZone offset) with
                    | none => ((ZeroDatetimeV, some TErr.wrongValue), warns)
                    | some t1 =>
                      let tmp2 := FromGoTime (t1.inLoc ctx.loc)
                      ((NewTime tmp2 TypeDatetime fsp, none), warns)
              else ((NewTime tmp1 TypeDatetime fsp, none), warns)

/-! ### Validation (`Check`) and the `ParseTime` entry points -/

/-- `MaxDatetime = 9999-12-31 23:59:59.999999`. -/
def MaxDatetime : Nat := FromDate 9999 12 31 23 59 59 999999

/-- `MinTimestamp = 1970-01-01 00:00:01 UTC`. -/
def MinTimestamp : Nat := NewTime (FromDate 1970 1 1 0 0 1 0) TypeTimestamp DefaultFsp

/-- `MaxTimestamp = 2038-01-19 03:14:07.999999 UTC`. -/
def MaxTimestamp : Nat :=
  NewTime (FromDate 2038 1 19 3 14 7 999999) TypeTimestamp DefaultFsp

/-- `maxDaysInMonth`. -/
def maxDaysInMonth : List Int := [31, 29, 31, 30, 31, 30, 31, 31, 30, 31, 30, 31]

/-- `isLeapYear` (modelled: the one-line Gregorian helper is not under
`src/`). -/
def isLeapYear (year : Nat) : Bool :=
  (year % 4 = 0 ∧ year % 100 ≠ 0) ∨ year % 400 = 0

/-- `checkMonthDay`. -/
def checkMonthDay (year month day : Int) (allowInvalidDate : Bool) : Option TErr :=
  if month < 0 ∨ month > 12 then some TErr.wrongValue
  else
    let maxDay : Int :=
      if ¬ allowInvalidDate then
        let maxDay := if month > 0 then maxDaysInMonth.getD (month - 1).toNat 31 else 31
        if month = 2 ∧ ¬ isLeapYear year.toNat then 28 else maxDay
      else 31
    if day < 0 ∨ day > maxDay then some TErr.wrongValue else none

/-- `checkDateRange` (the negative-field guards are vacuous on the `Nat`
accessors and kept for shape). -/
def checkDateRange (t : Nat) : Option TErr :=
  if (Year t : Int) < 0 ∨ (Month t : Int) < 0 ∨ (Day t : Int) < 0 then
    some TErr.wrongValue
  else if compareTime t MaxDatetime > 0 then some TErr.wrongValue
  else none

/-- `checkDateType`. -/
def checkDateType (t : Nat) (allowZeroInDate allowInvalidDate : Bool) : Option TErr :=
  let year : Int := Year t
  let month : Int := Month t
  let day : Int := Day t
  if year = 0 ∧ month = 0 ∧ day = 0 then none
  else if ¬ allowZeroInDate ∧ (month = 0 ∨ day = 0) then some TErr.wrongValue
  else
    match checkDateRange t with
    | some e => some e
    | none => checkMonthDay year month day allowInvalidDate

/-- `checkDatetimeType`. -/
def checkDatetimeType (t : Nat) (allowZeroInDate allowInvalidDate : Bool) :
    Option TErr :=
  match checkDateType t allowZeroInDate allowInvalidDate with
  | some e => some e
  | none =>
    let hour : Int := Hour t
    let minute : Int := Minute t
    let second : Int := Second t
    if hour < 0 ∨ hour ≥ 24 then some TErr.wrongValue
    else if minute < 0 ∨ minute ≥ 60 then some TErr.wrongValue
    else if second < 0 ∨ second ≥ 60 then some TErr.wrongValue
    else none

/-- `Time.Compare`. -/
def TimeCompare (t o : Nat) : Int := compareTime t o

/-- `adjustTimestampErrForDST`: with fixed-offset locations there are no DST
gaps, so `AdjustedGoTime` succeeds exactly when `GoTime` does; the adjusted
value then carries the dedicated transition error. -/
def adjustTimestampErrForDST (loc : GoLoc) (tp : Nat) (t : Nat) (err : Option TErr) :
    Nat × Option TErr :=
  if tp ≠ TypeTimestamp ∨ IsZero t then (t, err)
  else
    match ConvertTimeZone MinTimestamp UTC loc, ConvertTimeZone MaxTimestamp UTC loc with
    | some minTS, some maxTS =>
      if TimeCompare t minTS > 0 ∧ TimeCompare t maxTS < 0 then
        match AdjustedGoTime t loc with
        | some tAdj => (SetCoreTime t (FromGoTime tAdj), some TErr.dstTransition)
        | none => (t, err)
      else (t, err)
    | _, _ => (t, err)

/-- `checkTimestampType`. -/
def checkTimestampType (t : Nat) (tz : GoLoc) : Option TErr :=
  if compareTime t ZeroCoreTime = 0 then none
  else
    let conv : Option Nat :=
      if tz ≠ UTC then
        ConvertTimeZone (NewTime t TypeTimestamp DefaultFsp) tz UTC
      else some t
    match conv with
    | none =>
      -- the ConvertTimeZone error path routes through adjustTimestampErrForDST
      (adjustTimestampErrForDST tz TypeTimestamp t (some TErr.wrongValue)).2
    | some checkTime =>
      if compareTime checkTime MaxTimestamp > 0 ∨
          compareTime checkTime MinTimestamp < 0 then
        some TErr.wrongValue
      else
        match TimeGoTime t tz with
        | none => some TErr.wrongValue
        | some _ => none

/-- `Time.Check` dispatches on the stored type. -/
def TimeCheck (t : Nat) (ctx : PCtx) : Option TErr :=
  if TypeOf t = TypeTimestamp then checkTimestampType t ctx.loc
  else if TypeOf t = TypeDatetime ∨ TypeOf t = TypeDate then
    checkDatetimeType t ctx.ignoreZeroInDate ctx.ignoreInvalidDateErr
  else none

/-- `parseTime` (entered with `isFloat = false` from `ParseTime`). -/
def parseTime (ctx : PCtx) (str : Str) (tp : Nat) (fsp : Int) :
    (Nat × Option TErr) × List TErr :=
  let r := CheckFsp fsp
  match r.2 with
  | some e => ((NewTime ZeroCoreTime tp DefaultFsp, some e), [])
  | none =>
    let fsp := r.1
    match parseDatetimeStr ctx str fsp with
    | ((_, some e), w) => ((NewTime ZeroCoreTime tp DefaultFsp, some e), w)
    | ((t0, none), w) =>
      let t := SetType t0 tp
      match TimeCheck t ctx with
      | none => ((t, none), w)
      | some e =>
        if tp = TypeTimestamp ∧ ¬ IsZero t then
          match adjustTimestampErrForDST ctx.loc tp t (some e) with
          | (tAdj, some TErr.dstTransition) => ((tAdj, some TErr.dstTransition), w)
          | _ => ((NewTime ZeroCoreTime tp DefaultFsp, some e), w)
        else ((NewTime ZeroCoreTime tp DefaultFsp, some e), w)

/-- `ParseTime`. -/
def ParseTime (ctx : PCtx) (str : Str) (tp : Nat) (fsp : Int) :
    (Nat × Option TErr) × List TErr :=
  parseTime ctx str tp fsp

/-- `ParseDatetime`: `ParseTime` at datetime type with the literal's own
fsp. -/
def ParseDatetime (ctx : PCtx) (str : Str) : (Nat × Option TErr) × List TErr :=
  ParseTime ctx str TypeDatetime (GetFsp str)

/-- `ParseDuration`: try the duration grammar, else fall back to datetime
parsing for datetime-shaped literals; returns
`((duration, isNull, error), warnings)`. -/
def ParseDuration (ctx : PCtx) (str : Str) (fsp : Int) :
    (Duration × Bool × Option TErr) × List TErr :=
  let rest := goTrimSpace str
  match matchDuration rest fsp with
  | (d, isNull, none) => ((d, isNull, none), [])
  | (d, isNull, some _) =>
    if ¬ canFallbackToDateTime rest then
      ((d, isNull, some TErr.truncatedWrongVal), [])
    else
      match ParseDatetime ctx rest with
      | ((_, some _), w) => ((ZeroDuration, true, some TErr.truncatedWrongVal), w)
      | ((t, none), w) =>
        match ConvertToDuration t with
        | (_, some _) => ((ZeroDuration, true, some TErr.truncatedWrongVal), w)
        | (d2, none) =>
          match DurationRoundFrac d2 fsp (some ctx.loc) with
          | (d3, e3) => ((d3, false, e3), w)


/-! ## Helper lemmas -/

theorem or_decomp (a b : Nat) :
    a ||| b = 2 * (a / 2 ||| b / 2) + (if a % 2 = 1 ∨ b % 2 = 1 then 1 else 0) := by
  have h1 : (a ||| b) / 2 = a / 2 ||| b / 2 := Nat.or_div_two
  have h2 : (a ||| b) % 2 = 1 ↔ a % 2 = 1 ∨ b % 2 = 1 := Nat.or_mod_two_eq_one
  rcases Nat.mod_two_eq_zero_or_one (a ||| b) with h | h <;> split <;> omega

theorem lor_lt (n : Nat) : ∀ r b : Nat, r < 2 ^ n → b < 2 ^ n → (r ||| b) < 2 ^ n := by
  induction n with
  | zero =>
    intro r b hr hb
    interval_cases r
    interval_cases b
    simp
  | succ n ih =>
    intro r b hr hb
    have h := ih (r / 2) (b / 2) (by omega) (by omega)
    have hd := or_decomp r b
    have hp : 2 ^ (n + 1) = 2 * 2 ^ n := by ring
    split at hd <;> omega

theorem lor_split (n : Nat) : ∀ k r b : Nat, r < 2 ^ n → b < 2 ^ n →
    ((2 ^ n * k + r) ||| b) = 2 ^ n * k + (r ||| b) := by
  induction n with
  | zero =>
    intro k r b hr hb
    interval_cases r
    interval_cases b
    simp
  | succ n ih =>
    intro k r b hr hb
    have hp : 2 ^ (n + 1) * k = 2 * (2 ^ n * k) := by ring
    rw [hp, or_decomp (2 * (2 ^ n * k) + r) b, or_decomp r b]
    have e1 : (2 * (2 ^ n * k) + r) / 2 = 2 ^ n * k + r / 2 := by
      generalize 2 ^ n * k = A
      omega
    have e2 : (2 * (2 ^ n * k) + r) % 2 = r % 2 := by
      generalize 2 ^ n * k = A
      omega
    rw [e1, e2, ih k (r / 2) (b / 2) (by omega) (by omega)]
    generalize 2 ^ n * k = A
    generalize (r / 2 ||| b / 2) = B
    split <;> omega

theorem coreTimeOf_or_low (t v : Nat) (hv : v < 16) :
    CoreTimeOf ((t % 2 ^ 64 / 16 * 16) ||| v) = CoreTimeOf t := by
  have h0 : t % 2 ^ 64 / 16 * 16 = 2 ^ 4 * (t % 2 ^ 64 / 16) + 0 := by ring
  rw [h0, lor_split 4 (t % 2 ^ 64 / 16) 0 v (by omega) (by omega), Nat.zero_or]
  unfold CoreTimeOf
  omega

theorem coreTimeOf_cleared_or (t v : Nat) (hv : v < 16) :
    CoreTimeOf ((t % 2 ^ 64 - t % 16 / 2 * 2) ||| v) = CoreTimeOf t := by
  have h0 : t % 2 ^ 64 - t % 16 / 2 * 2 =
      2 ^ 4 * (t % 2 ^ 64 / 16) + (t % 16 - t % 16 / 2 * 2) := by
    omega
  have hr : t % 16 - t % 16 / 2 * 2 < 16 := by omega
  rw [h0, lor_split 4 (t % 2 ^ 64 / 16) _ v hr hv]
  have hlt := lor_lt 4 (t % 16 - t % 16 / 2 * 2) v hr hv
  unfold CoreTimeOf
  generalize ht : (t % 16 - t % 16 / 2 * 2) ||| v = B at hlt ⊢
  omega

theorem isZero_iff (t : Nat) : IsZero t = true ↔
    (Year t = 0 ∧ Month t = 0 ∧ Day t = 0 ∧ Hour t = 0 ∧ Minute t = 0 ∧
      Second t = 0 ∧ Microsecond t = 0) := by
  unfold IsZero compareTime datetimeToUint64 ZeroCoreTime Year Month Day Hour
    Minute Second Microsecond
  simp only [beq_iff_eq]
  split_ifs <;> omega

theorem time_decomp (t : Nat) (h : t < 2 ^ 64) :
    t = t % 16 + Microsecond t * 2 ^ 4 + Second t * 2 ^ 24 + Minute t * 2 ^ 30 +
      Hour t * 2 ^ 36 + Day t * 2 ^ 41 + Month t * 2 ^ 46 + Year t * 2 ^ 50 := by
  unfold Year Month Day Hour Minute Second Microsecond
  omega

theorem accessor_eqs (t : Nat) :
    Year t = t / 2 ^ 50 % 2 ^ 14 ∧ Month t = t / 2 ^ 46 % 2 ^ 4 ∧
    Day t = t / 2 ^ 41 % 2 ^ 5 ∧ Hour t = t / 2 ^ 36 % 2 ^ 5 ∧
    Minute t = t / 2 ^ 30 % 2 ^ 6 ∧ Second t = t / 2 ^ 24 % 2 ^ 6 ∧
    Microsecond t = t / 2 ^ 4 % 2 ^ 20 :=
  ⟨rfl, rfl, rfl, rfl, rfl, rfl, rfl⟩

theorem toU64_cast (n : Nat) : toU64 (↑n) = n % 2 ^ 64 := by
  unfold toU64
  omega

theorem fromDate_cast (y mo d h mi s us : Nat) :
    FromDate (↑y) (↑mo) (↑d) (↑h) (↑mi) (↑s) (↑us) =
    us % 2 ^ 64 % 2 ^ 20 * 2 ^ 4 + s % 2 ^ 64 % 2 ^ 6 * 2 ^ 24 +
      mi % 2 ^ 64 % 2 ^ 6 * 2 ^ 30 + h % 2 ^ 64 % 2 ^ 5 * 2 ^ 36 +
      d % 2 ^ 64 % 2 ^ 5 * 2 ^ 41 + mo % 2 ^ 64 % 2 ^ 4 * 2 ^ 46 +
      y % 2 ^ 64 % 2 ^ 14 * 2 ^ 50 := by
  unfold FromDate
  rw [toU64_cast, toU64_cast, toU64_cast, toU64_cast, toU64_cast, toU64_cast,
    toU64_cast]

set_option maxHeartbeats 1000000 in
theorem fromPacked_encode (t Y Mo D H Mi S Us : Nat)
    (hMo : Mo ≤ 12) (hD : D < 2 ^ 5) (hH : H < 2 ^ 5)
    (hMi : Mi < 2 ^ 6) (hS : S < 2 ^ 6) (hUs : Us < 2 ^ 20)
    (hne : ((Y * 13 + Mo) * 2 ^ 5 + D) * 2 ^ 17 + (H * 2 ^ 12 + Mi * 2 ^ 6 + S) ≠ 0 ∨ Us ≠ 0) :
    FromPackedUint t ((((Y * 13 + Mo) * 2 ^ 5 + D) * 2 ^ 17 +
        (H * 2 ^ 12 + Mi * 2 ^ 6 + S)) * 2 ^ 24 + Us) =
      SetCoreTime t (Us * 2 ^ 4 + S * 2 ^ 24 + Mi * 2 ^ 30 + H * 2 ^ 36 +
        D * 2 ^ 41 + Mo * 2 ^ 46 + Y * 2 ^ 50) := by
  have hP : (((Y * 13 + Mo) * 2 ^ 5 + D) * 2 ^ 17 +
      (H * 2 ^ 12 + Mi * 2 ^ 6 + S)) * 2 ^ 24 + Us ≠ 0 := by omega
  simp only [FromPackedUint]
  rw [if_neg hP]
  have e0 : ((((Y * 13 + Mo) * 2 ^ 5 + D) * 2 ^ 17 +
      (H * 2 ^ 12 + Mi * 2 ^ 6 + S)) * 2 ^ 24 + Us) / 2 ^ 24 =
      ((Y * 13 + Mo) * 2 ^ 5 + D) * 2 ^ 17 + (H * 2 ^ 12 + Mi * 2 ^ 6 + S) := by
    omega
  have e10 : ((((Y * 13 + Mo) * 2 ^ 5 + D) * 2 ^ 17 +
      (H * 2 ^ 12 + Mi * 2 ^ 6 + S)) * 2 ^ 24 + Us) % 2 ^ 24 = Us := by omega
  rw [e0, e10]
  have e1 : (((Y * 13 + Mo) * 2 ^ 5 + D) * 2 ^ 17 +
      (H * 2 ^ 12 + Mi * 2 ^ 6 + S)) / 2 ^ 17 = (Y * 13 + Mo) * 2 ^ 5 + D := by
    omega
  have e6 : (((Y * 13 + Mo) * 2 ^ 5 + D) * 2 ^ 17 +
      (H * 2 ^ 12 + Mi * 2 ^ 6 + S)) % 2 ^ 17 = H * 2 ^ 12 + Mi * 2 ^ 6 + S := by
    omega
  rw [e1, e6]
  have e2 : ((Y * 13 + Mo) * 2 ^ 5 + D) % 2 ^ 5 = D := by omega
  have e3 : ((Y * 13 + Mo) * 2 ^ 5 + D) / 2 ^ 5 = Y * 13 + Mo := by omega
  rw [e2, e3]
  have e4 : (Y * 13 + Mo) % 13 = Mo := by omega
  have e5 : (Y * 13 + Mo) / 13 = Y := by omega
  rw [e4, e5]
  have e7 : (H * 2 ^ 12 + Mi * 2 ^ 6 + S) % 2 ^ 6 = S := by omega
  have e8 : (H * 2 ^ 12 + Mi * 2 ^ 6 + S) / 2 ^ 6 % 2 ^ 6 = Mi := by omega
  have e9 : (H * 2 ^ 12 + Mi * 2 ^ 6 + S) / 2 ^ 12 = H := by omega
  rw [e7, e8, e9, fromDate_cast]
  unfold SetCoreTime
  omega

/-! ## Claims -/

set_option maxHeartbeats 1000000 in
/-- C1: for every valid `Time` value `t` (fields within the documented
ranges of the packed layout), decoding the packed 64-bit encoding restores
`t` exactly; a zero `Time` encodes as the all-zero packed integer (and
conversely); and the most significant (reserved) bit of the packed word is
zero — the layout being, from the MSB, 1 reserved bit, 17 bits of
`year*13+month` with 5 bits of day, then 5/6/6/24 bits of
hour/minute/second/microsecond, as carried by the definitions of
`ToPackedUint`/`FromPackedUint`. -/
theorem C1_packed_roundtrip (t : Nat) (hlt : t < 2 ^ 64) (hv : ValidTime t) :
    FromPackedUint t (ToPackedUint t) = t ∧
    (IsZero t = true ↔ ToPackedUint t = 0) ∧
    ToPackedUint t < 2 ^ 63 := by
  obtain ⟨h1, h2, h3, h4, h5, h6, h7⟩ := hv
  have hdec := time_decomp t hlt
  obtain ⟨eY, eMo, eD, eH, eMi, eS, eUs⟩ := accessor_eqs t
  refine ⟨?_, ?_, ?_⟩
  · by_cases hz : IsZero t = true
    · have hf := (isZero_iff t).mp hz
      simp only [ToPackedUint, FromPackedUint, SetCoreTime, ZeroCoreTime, hz, if_true]
      obtain ⟨f1, f2, f3, f4, f5, f6, f7⟩ := hf
      omega
    · have hnz := fun hc => hz ((isZero_iff t).mpr hc)
      have hne : ((Year t * 13 + Month t) * 2 ^ 5 + Day t) * 2 ^ 17 +
          (Hour t * 2 ^ 12 + Minute t * 2 ^ 6 + Second t) ≠ 0 ∨ Microsecond t ≠ 0 := by
        by_contra hcon
        apply hnz
        omega
      simp only [ToPackedUint]
      rw [if_neg hz]
      rw [fromPacked_encode t (Year t) (Month t) (Day t) (Hour t) (Minute t)
        (Second t) (Microsecond t) h2 (by omega) (by omega)
        (by omega) (by omega) (by omega) hne]
      unfold SetCoreTime
      omega
  · constructor
    · intro hz
      simp only [ToPackedUint, hz, if_true]
    · intro hp
      by_cases hz : IsZero t = true
      · exact hz
      · exfalso
        simp only [ToPackedUint] at hp
        rw [if_neg hz] at hp
        apply hz ((isZero_iff t).mpr ?_)
        omega
  · simp only [ToPackedUint]
    split
    · omega
    · omega

/-- Witness for C1 at the concrete value 2020-12-31 23:59:59.999999
(timestamp-tagged, fsp 6). -/
theorem C1_packed_roundtrip_witness :
    NewTime (FromDate 2020 12 31 23 59 59 999999) TypeTimestamp 6 < 2 ^ 64 ∧
    ValidTime (NewTime (FromDate 2020 12 31 23 59 59 999999) TypeTimestamp 6) ∧
    FromPackedUint (NewTime (FromDate 2020 12 31 23 59 59 999999) TypeTimestamp 6)
      (ToPackedUint (NewTime (FromDate 2020 12 31 23 59 59 999999) TypeTimestamp 6)) =
      NewTime (FromDate 2020 12 31 23 59 59 999999) TypeTimestamp 6 :=
  ⟨by decide, by decide,
    (C1_packed_roundtrip _ (by decide) (by decide)).1⟩

/-- C6: `adjustYear` maps 0–69 to `2000+y`, 70–99 to `1900+y`, and is the
identity on every other integer. -/
theorem C6_adjustYear (y : Int) :
    (0 ≤ y ∧ y ≤ 69 → adjustYear y = 2000 + y) ∧
    (70 ≤ y ∧ y ≤ 99 → adjustYear y = 1900 + y) ∧
    (y < 0 ∨ 99 < y → adjustYear y = y) := by
  unfold adjustYear
  refine ⟨fun h => ?_, fun h => ?_, fun h => ?_⟩ <;> split_ifs <;> omega

/-- Witness for C6 at 3, 85 and 2020. -/
theorem C6_adjustYear_witness :
    adjustYear 3 = 2003 ∧ adjustYear 85 = 1985 ∧ adjustYear 2020 = 2020 :=
  ⟨(C6_adjustYear 3).1 (by decide), (C6_adjustYear 85).2.1 (by decide),
    (C6_adjustYear 2020).2.2 (by decide)⟩

/-- C9 counterexample: the claim quantifies over *every* argument, but
`SetFsp` with the out-of-range fsp 8 ors `8 << 1 = 16` into the word, which
sets bit 4 — the lowest microsecond bit — so the 60 core bits change:
`t.CoreTime()` differs before and after `SetFsp(8)` on
2020-01-01 00:00:00. -/
theorem C9_counterexample :
    CoreTimeOf (SetFsp (NewTime (FromDate 2020 1 1 0 0 0 0) TypeDatetime 0) 8) ≠
      CoreTimeOf (NewTime (FromDate 2020 1 1 0 0 0 0) TypeDatetime 0) := by
  decide

/-- C9 (amended): `SetType` only ever touches the 4 tag bits for every time
word and every type-code argument, and `SetFsp` does so for every fsp in
`{UnspecifiedFsp} ∪ [0, 7]` — in particular for every valid fsp 0–6 — so
`t.CoreTime()` is unchanged; an fsp of 8 or more (or below −1) can clobber
core bits (see the counterexample). -/
theorem C9_tag_bits_only (t : Nat) (tp : Nat) (fsp : Int)
    (hf : fsp = UnspecifiedFsp ∨ 0 ≤ fsp ∧ fsp ≤ 7) :
    CoreTimeOf (SetType t tp) = CoreTimeOf t ∧
    CoreTimeOf (SetFsp t fsp) = CoreTimeOf t := by
  constructor
  · simp only [SetType, setFspTt]
    apply coreTimeOf_or_low
    unfold getFspTt fspTtForDate
    split_ifs <;> omega
  · unfold SetFsp
    split_ifs with h1 h2
    · rfl
    · exact coreTimeOf_cleared_or t _ (by decide)
    · refine coreTimeOf_cleared_or t _ ?_
      unfold toU64
      unfold UnspecifiedFsp at h2
      rcases hf with h | h
      · exact absurd h h2
      · omega

/-- Witness for C9 (amended) at a concrete word, type and fsp. -/
theorem C9_tag_bits_only_witness :
    CoreTimeOf (SetType (NewTime (FromDate 2020 1 1 0 0 0 0) TypeDatetime 0) TypeTimestamp) =
      CoreTimeOf (NewTime (FromDate 2020 1 1 0 0 0 0) TypeDatetime 0) ∧
    CoreTimeOf (SetFsp (NewTime (FromDate 2020 1 1 0 0 0 0) TypeDatetime 0) 6) =
      CoreTimeOf (NewTime (FromDate 2020 1 1 0 0 0 0) TypeDatetime 0) :=
  C9_tag_bits_only (NewTime (FromDate 2020 1 1 0 0 0 0) TypeDatetime 0)
    TypeTimestamp 6 (Or.inr (by decide))

/-- C3 counterexample: the claim says an Overflow-class error is always
returned unchanged, but `HandleTruncate`'s code list includes the
data-out-of-range codes (1264, 1690) — the very code `errors.go` assigns to
`ErrOverflow` — so a pingcap-typed error with that code is silently dropped
under `ignoreTruncateErr`. -/
theorem C3_counterexample :
    HandleTruncate ⟨true, false, []⟩ (some (GoErr.perror ErrDataOutOfRangeCode)) =
      (none, ⟨true, false, []⟩) := by
  rfl

/-- C3 (amended): `HandleTruncate` keeps nil; it applies the
ignore/warn/return policy exactly to errors carried as pingcap
`*errors.Error` values whose code is in its fixed list — a list that
contains the truncation-family codes *and* the overflow (data-out-of-range)
codes — and returns every other error unchanged regardless of the flags; in
particular this repository's own `ErrTruncatedWrongVal` and `ErrOverflow`
constants are `*TError`s, fail the type assertion, and are always returned
unchanged. -/
theorem C3_handleTruncate_policy (c : StmtContext) (e : GoErr) :
    (HandleTruncate c none = (none, c)) ∧
    (handledByTruncatePolicy e = false →
      HandleTruncate c (some e) = (some e, c)) ∧
    (handledByTruncatePolicy e = true → c.ignoreTruncateErr = true →
      HandleTruncate c (some e) = (none, c)) ∧
    (handledByTruncatePolicy e = true → c.ignoreTruncateErr = false →
      c.truncateAsWarning = true →
      HandleTruncate c (some e) = (none, AppendWarning c e)) ∧
    (handledByTruncatePolicy e = true → c.ignoreTruncateErr = false →
      c.truncateAsWarning = false →
      HandleTruncate c (some e) = (some e, c)) ∧
    (handledByTruncatePolicy ErrTruncatedWrongValGo = false ∧
      handledByTruncatePolicy ErrOverflow = false ∧
      handledByTruncatePolicy (GoErr.perror ErrDataOutOfRangeCode) = true ∧
      handledByTruncatePolicy (GoErr.perror ErrWarnDataOutOfRangeCode) = true ∧
      handledByTruncatePolicy (GoErr.perror ErrTruncatedWrongValueCode) = true) := by
  refine ⟨rfl, ?_, ?_, ?_, ?_, by decide⟩ <;>
    · intros
      simp only [HandleTruncate]
      simp_all

/-- Witness for C3 (amended): the warning path at a concrete context and a
truncation-coded pingcap error. -/
theorem C3_handleTruncate_policy_witness :
    HandleTruncate ⟨false, true, []⟩ (some (GoErr.perror ErrTruncatedWrongValueCode)) =
      (none, AppendWarning ⟨false, true, []⟩ (GoErr.perror ErrTruncatedWrongValueCode)) :=
  (C3_handleTruncate_policy ⟨false, true, []⟩
    (GoErr.perror ErrTruncatedWrongValueCode)).2.2.2.1 (by decide) (by decide)
    (by decide)

/-- C8: `ParseEnumValue` yields `{name: elems[n-1], value: n}` for
`1 ≤ n ≤ len(elems)` and the zero `Enum` with an error for `n = 0` or
`n > len(elems)`; in particular `ParseEnumValue(["a","b","c"], 2)` is
`{name:"b", value:2}` and `ParseEnumValue(["a","b","c"], 0)` errors. -/
theorem C8_parseEnumValue (elems : List Str) (n : Nat) :
    (1 ≤ n → n ≤ elems.length →
      ParseEnumValue elems n = (⟨elems.getD (n - 1) [], n⟩, none)) ∧
    (n = 0 ∨ n > elems.length →
      ParseEnumValue elems n =
        (⟨[], 0⟩, some (GoErr.terror WarnDataTruncatedCode))) ∧
    ParseEnumValue [gs "a", gs "b", gs "c"] 2 = (⟨gs "b", 2⟩, none) ∧
    (ParseEnumValue [gs "a", gs "b", gs "c"] 0).2.isSome = true := by
  refine ⟨?_, ?_, by decide, by decide⟩
  · intro h1 h2
    unfold ParseEnumValue
    rw [if_neg (by omega)]
  · intro h
    unfold ParseEnumValue
    rw [if_pos (by omega)]

/-- Witness for C8 at `["a","b","c"]`, ordinals 2 and 4. -/
theorem C8_parseEnumValue_witness :
    ParseEnumValue [gs "a", gs "b", gs "c"] 2 =
      (⟨(List.getD [gs "a", gs "b", gs "c"] 1 []), 2⟩, none) ∧
    ParseEnumValue [gs "a", gs "b", gs "c"] 4 =
      (⟨[], 0⟩, some (GoErr.terror WarnDataTruncatedCode)) :=
  ⟨(C8_parseEnumValue [gs "a", gs "b", gs "c"] 2).1 (by decide) (by decide),
    (C8_parseEnumValue [gs "a", gs "b", gs "c"] 4).2.1 (Or.inr (by decide))⟩

/-- C5: converting the decimal written `18446744073709551615` to unsigned
64-bit with upper bound `2^64 − 1` yields exactly that value with no error —
the conversion is the digit-string pipeline `convertDecimalStrToUint`
(sign/zero stripping, fractional round-up, string comparison against the
bound), with no float64 round-trip anywhere in the definitions. -/
theorem C5_decimal_to_uint_exact :
    convertDecimalStrToUint (gs "18446744073709551615") (2 ^ 64 - 1) 0 =
      (18446744073709551615, none) ∧
    ConvertDecimalToUint (gs "18446744073709551615") (2 ^ 64 - 1) 0 =
      (18446744073709551615, none) := by
  exact ⟨rfl, rfl⟩

/-- C10: rounding a `Duration` at its own stored fsp (any valid fsp 0–6) is
the identity and reports no error, whatever the stored nanosecond value and
whatever the (possibly nil) location — the fsp-equality early return fires
before any rounding. -/
theorem C10_roundFrac_identity (dd fsp : Int) (loc : Option GoLoc)
    (h : 0 ≤ fsp ∧ fsp ≤ 6) :
    DurationRoundFrac ⟨dd, fsp⟩ fsp loc = (⟨dd, fsp⟩, none) := by
  unfold DurationRoundFrac CheckFsp UnspecifiedFsp MinFsp MaxFsp
  rw [if_neg (by omega), if_neg (by omega), if_neg (by omega)]
  simp

/-- Witness for C10 at a duration with sub-fsp precision (fsp 3 but
nanosecond-level value). -/
theorem C10_roundFrac_identity_witness :
    DurationRoundFrac ⟨123456789, 3⟩ 3 (some UTC) = (⟨123456789, 3⟩, none) :=
  C10_roundFrac_identity 123456789 3 (some UTC) (by decide)

/-- C4: at every valid fsp, `"-838:59:59"` parses to exactly the minimum
duration with no error, and `"839:00:00"` parses to the clamped maximum
duration together with a truncation error; `"-839:00:00"` clamps to the
*signed* boundary (the minimum) with a truncation error, witnessing that an
hour magnitude beyond 838 is clamped toward the input's sign and reported
as truncation rather than failing outright. -/
theorem C4_duration_boundary (fsp : Int) (h : 0 ≤ fsp ∧ fsp ≤ 6) :
    ParseDuration defaultCtx (gs "-838:59:59") fsp =
      ((⟨MinTime, fsp⟩, false, none), []) ∧
    ParseDuration defaultCtx (gs "839:00:00") fsp =
      ((⟨MaxTime, fsp⟩, false, some TErr.truncatedWrongVal), []) ∧
    ParseDuration defaultCtx (gs "-839:00:00") fsp =
      ((⟨MinTime, fsp⟩, false, some TErr.truncatedWrongVal), []) := by
  obtain ⟨h1, h2⟩ := h
  interval_cases fsp <;> exact ⟨by decide, by decide, by decide⟩

/-- Witness for C4 at fsp 0. -/
theorem C4_duration_boundary_witness :
    ParseDuration defaultCtx (gs "-838:59:59") 0 =
      ((⟨MinTime, 0⟩, false, none), []) ∧
    ParseDuration defaultCtx (gs "839:00:00") 0 =
      ((⟨MaxTime, 0⟩, false, some TErr.truncatedWrongVal), []) :=
  ⟨(C4_duration_boundary 0 (by decide)).1, (C4_duration_boundary 0 (by decide)).2.1⟩

/-- C7 (code bug): the claim — backed by the spec's fractional-rounding
property — expects `ParseDuration("10:10:10.999999", fsp=0)` to round up to
`10:10:11` with no error.  This repository's `Digit(s, n)` reads *exactly*
`n` digits (upstream reads a maximal run of at least `n`), so `matchFrac`'s
`Digit(rest, 0)` always yields the empty string: the fraction digits stay
unconsumed in `rest`, and since the literal is 15 ≥ 12 characters long,
`matchDuration` aborts; the datetime fallback does not apply (its 12/14
digit test is dead under exactly-`n` semantics), so the call returns the
zero duration, `isNull = true`, and a truncated-value error instead of
`10:10:11`. -/
theorem C7_frac_digits_bug :
    ParseDuration defaultCtx (gs "10:10:10.999999") 0 =
      ((ZeroDuration, true, some TErr.truncatedWrongVal), []) ∧
    matchFrac (gs ".999999") 0 = some (false, 0, gs "999999") := by
  exact ⟨by decide, by decide⟩

/-- C2 counterexample: on `"2020-12-10 11:11:11+05:00"` with target type
Datetime (context location UTC), the trailing `+05:00` is *not* absorbed
(six components already) and yet *is* applied as a zone conversion: the
result is 2020-12-10 06:11:11, not the claimed 11:11:11 with the suffix
ignored. -/
theorem C2_counterexample :
    (ParseTime defaultCtx (gs "2020-12-10 11:11:11+05:00") TypeDatetime 0).1 =
      (NewTime (FromDate 2020 12 10 6 11 11 0) TypeDatetime 0, none) ∧
    noAbsorb (splitDateTime (gs "2020-12-10 11:11:11+05:00")).1 = true ∧
    NewTime (FromDate 2020 12 10 6 11 11 0) TypeDatetime 0 ≠
      NewTime (FromDate 2020 12 10 11 11 11 0) TypeDatetime 0 := by
  exact ⟨by decide, by decide, by decide⟩

/-- C2 (amended): `parseDatetime` applies a non-absorbed trailing timezone
suffix as a conversion into `ctx.Location()` *before* the target type is
applied, so the conversion happens for Timestamp, Datetime and Date alike —
witnessed on `"2020-12-10 11:11:11+05:00"` for all three target types. -/
theorem C2_timezone_applied_all_types :
    (ParseTime defaultCtx (gs "2020-12-10 11:11:11+05:00") TypeDatetime 0).1 =
      (NewTime (FromDate 2020 12 10 6 11 11 0) TypeDatetime 0, none) ∧
    (ParseTime defaultCtx (gs "2020-12-10 11:11:11+05:00") TypeTimestamp 0).1 =
      (NewTime (FromDate 2020 12 10 6 11 11 0) TypeTimestamp 0, none) ∧
    (ParseTime defaultCtx (gs "2020-12-10 11:11:11+05:00") TypeDate 0).1 =
      (NewTime (FromDate 2020 12 10 6 11 11 0) TypeDate 0, none) := by
  exact ⟨by decide, by decide, by decide⟩

end MP
